import Mathlib

/-!
Verification of the bot-rs gateway client against its specification.

The development shallowly embeds the Rust source:
* `src/models/event.rs` — the wire envelope `QQBotEvent` and the opcode
  taxonomy, together with a model of the serde JSON codec at the level of
  JSON values;
* `src/services/websocket/state.rs` — `SessionState`;
* `src/services/websocket/connection.rs` — the handshake branch, the
  heartbeat/resume payload builders, `handle_dispatch`, and the steady-state
  select loop modelled as a step function over an explicit stimulus stream;
* `src/services/server.rs` — the webhook intake routing and `dispatch_event`;
* `src/utils/validation.rs` — the Ed25519 webhook validator.

Machine integers are modelled as `Nat` (the codebase only produces
non-negative wire integers: `op` is `u8`, `s` is `u64`); the codec theorems
carry the corresponding range hypotheses.
-/

namespace BotRs

/-- JSON values (the `serde_json::Value` fragment the codebase produces:
null, booleans, non-negative integers, strings, arrays, objects). -/
inductive JValue where
  | null : JValue
  | bool (b : Bool) : JValue
  | num (n : Nat) : JValue
  | str (s : String) : JValue
  | arr (xs : List JValue) : JValue
  | obj (fields : List (String × JValue)) : JValue

/-- Look up a field of a JSON object by name (first occurrence). -/
def lookupField : List (String × JValue) → String → Option JValue
  | [], _ => none
  | (k, v) :: rest, key => if k = key then some v else lookupField rest key

/-- The wire envelope, from `src/models/event.rs` (`QQBotEvent`):
`id : Option<String>`, `op : u8`, `d : Option<serde_json::Value>`,
`s : Option<u64>`, `t : Option<String>`. -/
structure QQBotEvent where
  id : Option String
  op : Nat
  d : Option JValue
  s : Option Nat
  t : Option String

/-- serde serialization of `QQBotEvent`: fields in declaration order;
`id`, `s`, `t` carry `skip_serializing_if` and are omitted when `None`;
`d` has no skip attribute, so `None` serializes as JSON `null`. -/
def encode (e : QQBotEvent) : JValue :=
  .obj <|
    (match e.id with | some v => [("id", JValue.str v)] | none => [])
    ++ [("op", JValue.num e.op)]
    ++ [("d", match e.d with | some v => v | none => JValue.null)]
    ++ (match e.s with | some v => [("s", JValue.num v)] | none => [])
    ++ (match e.t with | some v => [("t", JValue.str v)] | none => [])

/-- serde deserialization of an optional string field: a missing field or a
JSON `null` yields `none`; a string yields `some`; anything else is an error. -/
def decodeOptStr (fields : List (String × JValue)) (key : String) :
    Option (Option String) :=
  match lookupField fields key with
  | none => some none
  | some .null => some none
  | some (.str s) => some (some s)
  | some _ => none

/-- serde deserialization of an optional `u64` field. -/
def decodeOptU64 (fields : List (String × JValue)) (key : String) :
    Option (Option Nat) :=
  match lookupField fields key with
  | none => some none
  | some .null => some none
  | some (.num n) => if n < 2 ^ 64 then some (some n) else none
  | some _ => none

/-- serde deserialization of the `d : Option<Value>` field: a missing field
or a JSON `null` yields `none`, any other value is kept. -/
def decodeD (o : Option JValue) : Option JValue :=
  match o with
  | none => none
  | some .null => none
  | some v => some v

/-- serde deserialization of `QQBotEvent` from a JSON value: requires an
object with a `u8` field `op`; the optional fields default to `none` when
missing or `null` (`d : Option<Value>` also maps `null` to `None`). -/
def decode (v : JValue) : Option QQBotEvent :=
  match v with
  | .obj fields =>
    match lookupField fields "op" with
    | some (.num op) =>
      if op < 2 ^ 8 then
        match decodeOptStr fields "id", decodeOptU64 fields "s",
            decodeOptStr fields "t" with
        | some id, some s, some t =>
          some ⟨id, op, decodeD (lookupField fields "d"), s, t⟩
        | _, _, _ => none
      else none
    | _ => none
  | _ => none

/-- Session data, from `src/services/websocket/state.rs` (`SessionData`). -/
structure SessionData where
  session_id : Option String
  last_seq : Option Nat
deriving DecidableEq

/-- Model of `SessionState::update` from `src/services/websocket/state.rs`: each field
is overwritten only when the argument is `Some` and differs from the stored
value; a `None` argument leaves the field untouched. -/
def SessionData.update (data : SessionData) (session_id : Option String)
    (last_seq : Option Nat) : SessionData :=
  let d1 :=
    if session_id.isSome ∧ data.session_id ≠ session_id then
      { data with session_id := session_id }
    else data
  if last_seq.isSome ∧ d1.last_seq ≠ last_seq then
    { d1 with last_seq := last_seq }
  else d1

/-- Opcode taxonomy from `src/models/event.rs` (`OpCode`). -/
inductive OpCode where
  | Dispatch | Heartbeat | Identify | Resume | Reconnect
  | InvalidSession | Hello | HeartbeatACK | CallbackACK | WebhookValidate
deriving DecidableEq

/-- Model of `OpCode::try_from` (derived by `TryFromPrimitive` over the `repr(u8)`
discriminants 0, 1, 2, 6, 7, 9, 10, 11, 12, 13). -/
def opFromU8 : Nat → Option OpCode
  | 0 => some .Dispatch
  | 1 => some .Heartbeat
  | 2 => some .Identify
  | 6 => some .Resume
  | 7 => some .Reconnect
  | 9 => some .InvalidSession
  | 10 => some .Hello
  | 11 => some .HeartbeatACK
  | 12 => some .CallbackACK
  | 13 => some .WebhookValidate
  | _ => none

/-- Model of `OpCode::try_from(event.op).unwrap_or(OpCode::Dispatch)` as used in
`connect_and_loop`: an undefined opcode falls back to `Dispatch`. -/
def opOrDispatch (n : Nat) : OpCode :=
  (opFromU8 n).getD .Dispatch

/-- The `EventType` enum with its `strum::EnumString` forms, from
`src/services/server.rs`. -/
inductive EventType where
  | GroupAtMessageCreate | Ready | C2CMessageCreate
deriving DecidableEq

/-- Model of `EventType::from_str` (the `strum` serializations). -/
def EventType.fromStr (s : String) : Option EventType :=
  if s = "GROUP_AT_MESSAGE_CREATE" then some .GroupAtMessageCreate
  else if s = "READY" then some .Ready
  else if s = "C2C_MESSAGE_CREATE" then some .C2CMessageCreate
  else none

/-- The `Author` struct from `src/models/message.rs`. -/
structure Author where
  id : String
  member_openid : String
  union_openid : String
deriving DecidableEq

/-- The `MessageScene` struct from `src/models/message.rs`. -/
structure MessageScene where
  source : String
deriving DecidableEq

/-- The `GroupMessage` struct from `src/models/message.rs` (all fields required;
`message_type : u8`). -/
structure GroupMessage where
  author : Author
  content : String
  group_id : String
  group_openid : String
  id : String
  message_scene : MessageScene
  message_type : Nat
  timestamp : String
deriving DecidableEq

/-- Modelled from the spec: the `C2CMessage` author carries `user_openid`
(the struct definition is referenced by `src/services/server.rs` and
`src/event_client.rs` but its declaration is not among the provided
sources; the spec gives `C2CMessage { author, content, id, ... }` with
`author.user_openid`). -/
structure C2CAuthor where
  user_openid : String
deriving DecidableEq

/-- Modelled from the spec: `C2CMessage { author, content, id, ... }`. -/
structure C2CMessage where
  author : C2CAuthor
  content : String
  id : String
deriving DecidableEq

/-- Decode a required string field of a JSON object (serde semantics). -/
def reqStr (fields : List (String × JValue)) (key : String) : Option String :=
  match lookupField fields key with
  | some (.str s) => some s
  | _ => none

/-- serde deserialization of `Author`. -/
def decodeAuthor (v : JValue) : Option Author :=
  match v with
  | .obj fields =>
    match reqStr fields "id", reqStr fields "member_openid",
        reqStr fields "union_openid" with
    | some a, some b, some c => some ⟨a, b, c⟩
    | _, _, _ => none
  | _ => none

/-- serde deserialization of `MessageScene`. -/
def decodeMessageScene (v : JValue) : Option MessageScene :=
  match v with
  | .obj fields =>
    match reqStr fields "source" with
    | some s => some ⟨s⟩
    | _ => none
  | _ => none

/-- serde deserialization of `GroupMessage` (all fields required,
`message_type` is a `u8`). -/
def decodeGroupMessage (v : JValue) : Option GroupMessage :=
  match v with
  | .obj fields =>
    match lookupField fields "author" >>= decodeAuthor,
        reqStr fields "content", reqStr fields "group_id",
        reqStr fields "group_openid", reqStr fields "id",
        lookupField fields "message_scene" >>= decodeMessageScene,
        lookupField fields "message_type", reqStr fields "timestamp" with
    | some author, some content, some gid, some gopen, some id,
        some scene, some (.num mt), some ts =>
      if mt < 2 ^ 8 then some ⟨author, content, gid, gopen, id, scene, mt, ts⟩
      else none
    | _, _, _, _, _, _, _, _ => none
  | _ => none

/-- serde deserialization of the spec-modelled `C2CMessage`. -/
def decodeC2CMessage (v : JValue) : Option C2CMessage :=
  match v with
  | .obj fields =>
    match lookupField fields "author", reqStr fields "content",
        reqStr fields "id" with
    | some (.obj afields), some content, some id =>
      match reqStr afields "user_openid" with
      | some u => some ⟨⟨u⟩, content, id⟩
      | _ => none
    | _, _, _ => none
  | _ => none

/-- Model of `serde_json::Map::insert` (a `BTreeMap` keyed by the string order), as
used by `send_identify` / `send_resume` to build the `d` payloads. -/
def mapInsert (m : List (String × JValue)) (k : String) (v : JValue) :
    List (String × JValue) :=
  match m with
  | [] => [(k, v)]
  | (k', v') :: rest =>
    if k < k' then (k, v) :: (k', v') :: rest
    else if k = k' then (k, v) :: rest
    else (k', v') :: mapInsert rest k v

/-- The envelope built by `WebSocketManager::send_identify`: op `Identify`
with `d = {token: "QQBot <token>", intents: 1 << 30, shard: [0, 1]}`. -/
def send_identify (token : String) : QQBotEvent :=
  let map := mapInsert (mapInsert (mapInsert [] "token"
    (.str ("QQBot " ++ token))) "intents" (.num (2 ^ 30)))
    "shard" (.arr [.num 0, .num 1])
  ⟨none, 2, some (.obj map), none, none⟩

/-- The envelope built by `WebSocketManager::send_resume`: op `Resume` with
`d = {token: "QQBot <token>", session_id, seq}`. -/
def send_resume (token : String) (session_id : String) (seq : Nat) :
    QQBotEvent :=
  let map := mapInsert (mapInsert (mapInsert [] "token"
    (.str ("QQBot " ++ token))) "session_id" (.str session_id))
    "seq" (.num seq)
  ⟨none, 6, some (.obj map), none, none⟩

/-- The envelope built by `WebSocketManager::send_heartbeat`: op `Heartbeat`
with `d` equal to the current `last_seq`, or JSON `null` when there is none. -/
def send_heartbeat (last_seq : Option Nat) : QQBotEvent :=
  let d := match last_seq with
    | some s => JValue.num s
    | none => JValue.null
  ⟨none, 1, some d, none, none⟩

/-- Step 2 of `connect_and_loop` (the post-Hello handshake branch): read the
session state; if both `session_id` and `last_seq` are present send Resume,
otherwise send Identify. -/
def chooseHandshake (token : String) (st : SessionData) : QQBotEvent :=
  match st.session_id, st.last_seq with
  | some sid, some seq => send_resume token sid seq
  | _, _ => send_identify token

/-- A handler invocation observable at the dispatch boundary. -/
inductive HandlerCall where
  | groupAt (m : GroupMessage)
  | c2c (m : C2CMessage)
deriving DecidableEq

/-- Model of `WebSocketManager::handle_dispatch` from
`src/services/websocket/connection.rs`: for a `READY` event it installs
`d.session_id` into the session state; every other event type (including
`GROUP_AT_MESSAGE_CREATE` and `C2C_MESSAGE_CREATE`) is only logged — the
routine invokes no handler (the source marks event dispatch as a TODO).
The result is the new session data paired with the handler invocations
performed (always none in the source). -/
def handle_dispatch (st : SessionData) (ev : QQBotEvent) :
    SessionData × List HandlerCall :=
  match ev.t with
  | none => (st, [])
  | some t =>
    match EventType.fromStr t with
    | some .Ready =>
      match ev.d with
      | some (.obj fields) =>
        match lookupField fields "session_id" with
        | some (.str sid) => (st.update (some sid) none, [])
        | _ => (st, [])
      | _ => (st, [])
    | some _ => (st, [])
    | none => (st, [])

/-- State carried by the steady-state select loop of `connect_and_loop`:
the shared session data and the `awaiting_ack` flag. -/
structure LoopState where
  session : SessionData
  awaitingAck : Bool
deriving DecidableEq

/-- Stimuli the steady-state select loop can wake on: a parsed text frame, an
unparsable text frame, a Close frame, a transport error, end of stream, a
heartbeat-interval tick, and the firing of the armed ACK-timeout sleep. -/
inductive Stim where
  | text (ev : QQBotEvent)
  | badText
  | close
  | ioErr
  | streamEnd
  | tick
  | ackTimeout

/-- How a connection attempt leaves the steady-state loop (the
`WebSocketError` variants produced there, plus the `Ok(())` exit taken on a
peer-requested Reconnect). -/
inductive ExitReason where
  | ok
  | connectionClosed
  | connectionFailed
  | heartbeatTimeout
  | invalidSession
deriving DecidableEq

/-- Observable outputs of one loop iteration: a heartbeat send (tagged with
whether it was peer-requested via opcode 1 or tick-driven, and carrying its
`d` payload) and a HeartbeatACK receipt. -/
inductive TraceItem where
  | hbSent (requested : Bool) (d : JValue)
  | ackReceived

/-- One iteration of the steady-state `tokio::select!` loop in
`connect_and_loop`, given the stimulus that won the select. Faithful to the
source: an `s` field always updates `last_seq` first; the opcode is read via
`try_from(..).unwrap_or(Dispatch)`; `HeartbeatACK` clears `awaiting_ack` and
disarms the timer; `InvalidSession` calls `update(None, None)` and exits with
an error; `Reconnect` exits with `Ok`; `Heartbeat` replies with an immediate
heartbeat (without touching `awaiting_ack` or the timer); any other defined
opcode is logged; a tick sends a heartbeat, sets `awaiting_ack` and (re)arms
the timer; the ACK timer firing exits with `HeartbeatTimeout` only when
`awaiting_ack` is set. -/
def stepLoop (st : LoopState) (stim : Stim) :
    LoopState × List TraceItem × Option ExitReason :=
  match stim with
  | .text ev =>
    let session := match ev.s with
      | some n => st.session.update none (some n)
      | none => st.session
    match opOrDispatch ev.op with
    | .Dispatch =>
      let (session', _) := handle_dispatch session ev
      ({ st with session := session' }, [], none)
    | .HeartbeatACK =>
      ({ session := session, awaitingAck := false }, [.ackReceived], none)
    | .InvalidSession =>
      ({ st with session := session.update none none }, [],
        some .invalidSession)
    | .Reconnect => ({ st with session := session }, [], some .ok)
    | .Heartbeat =>
      ({ st with session := session },
        [.hbSent true ((send_heartbeat session.last_seq).d.getD .null)], none)
    | _ => ({ st with session := session }, [], none)
  | .badText => (st, [], none)
  | .close => (st, [], some .connectionClosed)
  | .ioErr => (st, [], some .connectionFailed)
  | .streamEnd => (st, [], some .connectionClosed)
  | .tick =>
    ({ st with awaitingAck := true },
      [.hbSent false ((send_heartbeat st.session.last_seq).d.getD .null)],
      none)
  | .ackTimeout =>
    if st.awaitingAck then (st, [], some .heartbeatTimeout)
    else (st, [], none)

/-- Run the steady-state loop on a stimulus stream, stopping at the first
exit. Returns the final loop state, the concatenated trace, and the exit
reason (or `none` if the stream was exhausted with the loop still running). -/
def runLoop (st : LoopState) :
    List Stim → LoopState × List TraceItem × Option ExitReason
  | [] => (st, [], none)
  | stim :: rest =>
    let (st', out, ex) := stepLoop st stim
    match ex with
    | some r => (st', out, some r)
    | none =>
      let (st'', outs, ex') := runLoop st' rest
      (st'', out ++ outs, ex')

/-- Outcome of `dispatch_event` in `src/services/server.rs`: the handler
invocations performed, or the error it returns. -/
inductive DispatchOutcome where
  | ok (calls : List HandlerCall)
  | serializationError
  | validationError
deriving DecidableEq

/-- Model of `dispatch_event` from `src/services/server.rs` (the webhook-path
dispatcher): routes a Dispatch envelope by `t`, decoding `d` (with
`unwrap_or_default`, i.e. JSON `null` when absent) as `GroupMessage` or
`C2CMessage` and invoking the corresponding handler; `READY` falls into the
silent catch-all; an unknown `t` is a validation error; a missing `t` does
nothing. -/
def dispatch_event (ev : QQBotEvent) : DispatchOutcome :=
  match ev.t with
  | none => .ok []
  | some t =>
    match EventType.fromStr t with
    | some .GroupAtMessageCreate =>
      match decodeGroupMessage (ev.d.getD .null) with
      | some m => .ok [.groupAt m]
      | none => .serializationError
    | some .C2CMessageCreate =>
      match decodeC2CMessage (ev.d.getD .null) with
      | some m => .ok [.c2c m]
      | none => .serializationError
    | some .Ready => .ok []
    | none => .validationError

/-! ### SHA-512 (RFC 6234), used by the Ed25519 webhook validator model.

Bytes are `Nat` values below 256; 64-bit words are `Nat` values reduced
modulo `2 ^ 64` explicitly. -/

/-- Right rotation of a 64-bit word. -/
def rotr64 (x n : Nat) : Nat :=
  (x >>> n) ||| ((x <<< (64 - n)) % 2 ^ 64)

/-- Big-endian bytes of a number, fixed width `k`. -/
def beBytes : Nat → Nat → List Nat
  | 0, _ => []
  | k + 1, n => beBytes k (n / 256) ++ [n % 256]

/-- Little-endian bytes of a number, fixed width `k`. -/
def leBytes : Nat → Nat → List Nat
  | 0, _ => []
  | k + 1, n => n % 256 :: leBytes k (n / 256)

/-- Little-endian byte decoding. -/
def leDecode (bs : List Nat) : Nat :=
  bs.foldr (fun b acc => acc * 256 + b) 0

/-- Big-endian word decoding. -/
def beDecode (bs : List Nat) : Nat :=
  bs.foldl (fun acc b => acc * 256 + b) 0

/-- Split a list into chunks of `n` elements (fuel-driven). -/
def chunkList {α : Type} : Nat → Nat → List α → List (List α)
  | 0, _, _ => []
  | _, _, [] => []
  | fuel + 1, n, xs => xs.take n :: chunkList fuel n (xs.drop n)

/-- The SHA-512 round constants (FIPS 180-4, in decimal). -/
def sha512K : List Nat :=
  [4794697086780616226, 8158064640168781261, 13096744586834688815,
   16840607885511220156, 4131703408338449720, 6480981068601479193,
   10538285296894168987, 12329834152419229976, 15566598209576043074,
   1334009975649890238, 2608012711638119052, 6128411473006802146,
   8268148722764581231, 9286055187155687089, 11230858885718282805,
   13951009754708518548, 16472876342353939154, 17275323862435702243,
   1135362057144423861, 2597628984639134821, 3308224258029322869,
   5365058923640841347, 6679025012923562964, 8573033837759648693,
   10970295158949994411, 12119686244451234320, 12683024718118986047,
   13788192230050041572, 14330467153632333762, 15395433587784984357,
   489312712824947311, 1452737877330783856, 2861767655752347644,
   3322285676063803686, 5560940570517711597, 5996557281743188959,
   7280758554555802590, 8532644243296465576, 9350256976987008742,
   10552545826968843579, 11727347734174303076, 12113106623233404929,
   14000437183269869457, 14369950271660146224, 15101387698204529176,
   15463397548674623760, 17586052441742319658, 1182934255886127544,
   1847814050463011016, 2177327727835720531, 2830643537854262169,
   3796741975233480872, 4115178125766777443, 5681478168544905931,
   6601373596472566643, 7507060721942968483, 8399075790359081724,
   8693463985226723168, 9568029438360202098, 10144078919501101548,
   10430055236837252648, 11840083180663258601, 13761210420658862357,
   14299343276471374635, 14566680578165727644, 15097957966210449927,
   16922976911328602910, 17689382322260857208, 500013540394364858,
   748580250866718886, 1242879168328830382, 1977374033974150939,
   2944078676154940804, 3659926193048069267, 4368137639120453308,
   4836135668995329356, 5532061633213252278, 6448918945643986474,
   6902733635092675308, 7801388544844847127]

/-- The SHA-512 initial hash values (FIPS 180-4, in decimal). -/
def sha512H0 : List Nat :=
  [7640891576956012808, 13503953896175478587, 4354685564936845355,
   11912009170470909681, 5840696475078001361, 11170449401992604703,
   2270897969802886507, 6620516959819538809]

/-- Message-schedule small sigma functions. -/
def sha512sig0 (x : Nat) : Nat := rotr64 x 1 ^^^ rotr64 x 8 ^^^ (x >>> 7)

/-- Message-schedule small sigma functions. -/
def sha512sig1 (x : Nat) : Nat := rotr64 x 19 ^^^ rotr64 x 61 ^^^ (x >>> 6)

/-- Extend the 16 block words to 80 (kept in reverse order while building). -/
def sha512Extend : Nat → List Nat → List Nat
  | 0, wrev => wrev
  | fuel + 1, wrev =>
    let nw := (sha512sig1 (wrev.getD 1 0) + wrev.getD 6 0 +
      sha512sig0 (wrev.getD 14 0) + wrev.getD 15 0) % 2 ^ 64
    sha512Extend fuel (nw :: wrev)

/-- Working state of the SHA-512 compression function. -/
structure Sha512State where
  a : Nat
  b : Nat
  c : Nat
  d : Nat
  e : Nat
  f : Nat
  g : Nat
  h : Nat

/-- One round of the SHA-512 compression function. -/
def sha512Round (st : Sha512State) (kw : Nat × Nat) : Sha512State :=
  let s1 := rotr64 st.e 14 ^^^ rotr64 st.e 18 ^^^ rotr64 st.e 41
  let ch := (st.e &&& st.f) ^^^ ((st.e ^^^ (2 ^ 64 - 1)) &&& st.g)
  let temp1 := (st.h + s1 + ch + kw.1 + kw.2) % 2 ^ 64
  let s0 := rotr64 st.a 28 ^^^ rotr64 st.a 34 ^^^ rotr64 st.a 39
  let maj := (st.a &&& st.b) ^^^ (st.a &&& st.c) ^^^ (st.b &&& st.c)
  let temp2 := (s0 + maj) % 2 ^ 64
  ⟨(temp1 + temp2) % 2 ^ 64, st.a, st.b, st.c,
    (st.d + temp1) % 2 ^ 64, st.e, st.f, st.g⟩

/-- Process one 1024-bit block, updating the eight hash words. -/
def sha512Block (hv : List Nat) (block : List Nat) : List Nat :=
  let w16 := (chunkList 16 8 block).map beDecode
  let w := (sha512Extend 64 w16.reverse).reverse
  let st0 : Sha512State := ⟨hv.getD 0 0, hv.getD 1 0, hv.getD 2 0, hv.getD 3 0,
    hv.getD 4 0, hv.getD 5 0, hv.getD 6 0, hv.getD 7 0⟩
  let st := (sha512K.zip w).foldl sha512Round st0
  [(hv.getD 0 0 + st.a) % 2 ^ 64, (hv.getD 1 0 + st.b) % 2 ^ 64,
   (hv.getD 2 0 + st.c) % 2 ^ 64, (hv.getD 3 0 + st.d) % 2 ^ 64,
   (hv.getD 4 0 + st.e) % 2 ^ 64, (hv.getD 5 0 + st.f) % 2 ^ 64,
   (hv.getD 6 0 + st.g) % 2 ^ 64, (hv.getD 7 0 + st.h) % 2 ^ 64]

/-- SHA-512 padding: append `0x80`, zeros, and the 128-bit big-endian bit
length, to a multiple of 128 bytes. -/
def sha512Pad (msg : List Nat) : List Nat :=
  let zeros := (128 - (msg.length + 17) % 128) % 128
  msg ++ [0x80] ++ List.replicate zeros 0 ++ beBytes 16 (msg.length * 8)

/-- SHA-512 of a byte list, as 64 bytes. -/
def sha512 (msg : List Nat) : List Nat :=
  let padded := sha512Pad msg
  let blocks := chunkList (padded.length / 128 + 1) 128 padded
  let hv := blocks.foldl sha512Block sha512H0
  (hv.map (beBytes 8)).flatten

/-! ### Ed25519 (RFC 8032), the signature scheme `validate_webhook` uses.

The base field is `GF(2 ^ 255 - 19)` with elements as `Nat` reduced mod
`edP`; curve points are concrete extended twisted-Edwards coordinates. The
scheme's group is the prime-order-`edL` subgroup generated by the base
point `B`; signing and the verification equation are stated over that
subgroup in its discrete-logarithm representation (a point `[n]B` is
represented by the scalar `n mod edL`), while point encodings — the bytes
that enter the hashes and the signature — are computed concretely on the
curve, so the signature bytes are the RFC 8032 ones. -/

/-- The field prime `2 ^ 255 - 19`. -/
def edP : Nat := 2 ^ 255 - 19

/-- The group order of the prime-order subgroup. -/
def edL : Nat := 2 ^ 252 + 27742317777372353535851937790883648493

/-- The curve constant `d = -121665 / 121666 mod edP`. -/
def edD : Nat :=
  37095705934669439343138083508754565189542113879843219016388785533085940283555

/-- A point in extended twisted-Edwards coordinates `(X, Y, Z, T)`. -/
structure EdPoint where
  x : Nat
  y : Nat
  z : Nat
  t : Nat

/-- The neutral element. -/
def edZero : EdPoint := ⟨0, 1, 1, 0⟩

/-- The base point `B` of edwards25519. -/
def edB : EdPoint :=
  let gx :=
    15112221349535400772501151409588531511454012693041857206046113283949847762202
  let gy :=
    46316835694926478169428394003475163141307993866256225615783033603165251855960
  ⟨gx, gy, 1, gx * gy % edP⟩

/-- Field subtraction with operands below `edP`. -/
def fsub (a b : Nat) : Nat := (a + edP - b % edP) % edP

/-- The complete unified addition on extended twisted-Edwards coordinates
(RFC 8032, section 5.1.4). -/
def edAdd (P Q : EdPoint) : EdPoint :=
  let A := fsub P.y P.x * fsub Q.y Q.x % edP
  let B := (P.y + P.x) % edP * ((Q.y + Q.x) % edP) % edP
  let C := P.t * 2 % edP * edD % edP * Q.t % edP
  let D := P.z * 2 % edP * Q.z % edP
  let E := fsub B A
  let F := fsub D C
  let G := (D + C) % edP
  let H := (B + A) % edP
  ⟨E * F % edP, G * H % edP, F * G % edP, E * H % edP⟩

/-- Fuel-driven binary scalar multiplication on the curve. -/
def edScalarMul : Nat → Nat → EdPoint → EdPoint
  | 0, _, _ => edZero
  | fuel + 1, n, P =>
    if n = 0 then edZero
    else
      let h := edScalarMul fuel (n / 2) (edAdd P P)
      if n % 2 = 1 then edAdd h P else h

/-- Fuel-driven binary modular exponentiation. -/
def powMod : Nat → Nat → Nat → Nat → Nat
  | 0, _, _, m => 1 % m
  | fuel + 1, b, e, m =>
    if e = 0 then 1 % m
    else
      let h := powMod fuel (b * b % m) (e / 2) m
      if e % 2 = 1 then h * b % m else h

/-- Point compression: 32 little-endian bytes of `y` with the low bit of
`x` stored in the top bit. -/
def edCompress (P : EdPoint) : List Nat :=
  let zinv := powMod 300 P.z (edP - 2) edP
  let x := P.x * zinv % edP
  let y := P.y * zinv % edP
  leBytes 32 (y + x % 2 * 2 ^ 255)

/-- Encoding of the subgroup element `[n]B`, computed concretely. -/
def encPoint (n : Nat) : List Nat :=
  edCompress (edScalarMul 300 (n % edL) edB)

/-- RFC 8032 scalar clamping of the first 32 bytes of the expanded seed:
clear bits 0-2 and 255, set bit 254. -/
def clampScalar (bs : List Nat) : Nat :=
  ((leDecode bs).land (2 ^ 254 - 8)).lor (2 ^ 254)

/-- The secret scalar of a 32-byte seed. -/
def signA (seed : List Nat) : Nat := clampScalar ((sha512 seed).take 32)

/-- The public key bytes of a 32-byte seed. -/
def pubBytes (seed : List Nat) : List Nat := encPoint (signA seed)

/-- The nonce scalar `r = SHA512(hashPrefix ++ msg) mod L`. -/
def signR (seed msg : List Nat) : Nat :=
  leDecode (sha512 ((sha512 seed).drop 32 ++ msg)) % edL

/-- The challenge scalar `k = SHA512(enc(R) ++ enc(A) ++ msg) mod L`. -/
def signK (seed msg : List Nat) : Nat :=
  leDecode (sha512 (encPoint (signR seed msg) ++ pubBytes seed ++ msg)) % edL

/-- The response scalar `S = (r + k * a) mod L`. -/
def signS (seed msg : List Nat) : Nat :=
  (signR seed msg + signK seed msg * (signA seed % edL)) % edL

/-- The 64-byte Ed25519 signature `enc(R) ++ littleEndian32(S)`. -/
def ed25519_sign (seed msg : List Nat) : List Nat :=
  encPoint (signR seed msg) ++ leBytes 32 (signS seed msg)

/-- Ed25519 verification over the discrete-logarithm representation of the
prime-order subgroup: given the public key `[a]B`, the signature point
`[r]B` and the response `S`, recompute the challenge `k` from the concrete
point encodings and check the RFC 8032 equation `[S]B = [r]B + [k][a]B`,
which in the subgroup is `S ≡ r + k * a (mod L)`. -/
def dlVerify (a r S : Nat) (msg : List Nat) : Bool :=
  let k := leDecode (sha512 (encPoint r ++ encPoint a ++ msg)) % edL
  S % edL == (r % edL + k * (a % edL)) % edL

/-! ### The webhook validator (`src/utils/validation.rs`). -/

/-- UTF-8 bytes of a string (Rust's `str::as_bytes`; `String::len` is the
length of this list). This is the byte list underlying `String.toUTF8`,
which is defined as `⟨⟨s.data.flatMap utf8EncodeChar⟩⟩`. -/
def strBytes (s : String) : List Nat :=
  (s.data.flatMap String.utf8EncodeChar).map (fun b => b.toNat)

/-- The `ValidationRequest` deserialization target of `validate_webhook`
(string fields `event_ts` and `plain_token`). -/
structure ValidationRequest where
  event_ts : String
  plain_token : String
deriving DecidableEq

/-- The `ValidationResponse` returned by `validate_webhook`. -/
structure ValidationResponse where
  plain_token : String
  signature : String
deriving DecidableEq

/-- serde deserialization of `ValidationRequest` from the envelope's `d`
payload; `none` models the `Err` the source immediately `unwrap`s. -/
def decodeValidationRequest (d : Option JValue) : Option ValidationRequest :=
  match d with
  | some (.obj fields) =>
    match reqStr fields "event_ts", reqStr fields "plain_token" with
    | some t, some p => some ⟨t, p⟩
    | _, _ => none
  | _ => none

/-- The seed-building `while` loop of `validate_webhook`
(`while seed.len() < 32 { seed.push_str(secret) }`), fuel-driven; `none`
models divergence (the fuel of 33 is ample: every productive iteration
appends at least one byte when the secret is non-empty, and an empty secret
never grows the accumulator). -/
def seedLoop (secret : List Nat) : Nat → List Nat → Option (List Nat)
  | 0, acc => if acc.length < 32 then none else some acc
  | fuel + 1, acc =>
    if acc.length < 32 then seedLoop secret fuel (acc ++ secret)
    else some acc

/-- The 32-byte signing seed `&seed.as_bytes()[..32]` built by
`validate_webhook` from the secret's bytes. -/
def seedBytes (secret : List Nat) : Option (List Nat) :=
  (seedLoop secret 33 secret).map (fun s => s.take 32)

/-- Lowercase hexadecimal digit. -/
def hexDigit (n : Nat) : Char :=
  if n < 10 then Char.ofNat (48 + n) else Char.ofNat (87 + n)

/-- Lowercase hexadecimal encoding of a byte list (the `hex::encode` of the
source). -/
def hexLower (bs : List Nat) : String :=
  String.mk ((bs.map (fun b => [hexDigit (b / 16), hexDigit (b % 16)])).flatten)

/-- Model of `validate_webhook` from `src/utils/validation.rs`: deserialize
the envelope's `d` into `ValidationRequest` (the source `unwrap`s the
result, so a failure panics — modelled as `none`), extend the secret to a
32-byte seed by the `while` loop (which diverges on an empty secret —
also `none`), sign `event_ts ++ plain_token` with Ed25519 and return the
plain token with the lowercase-hex signature. -/
def validate_webhook (payload : QQBotEvent) (secret : String) :
    Option ValidationResponse :=
  match decodeValidationRequest payload.d with
  | none => none
  | some req =>
    match seedBytes (strBytes secret) with
    | none => none
    | some seed =>
      some ⟨req.plain_token,
        hexLower (ed25519_sign seed
          (strBytes (req.event_ts ++ req.plain_token)))⟩

/-- The HTTP replies of the intake route. -/
inductive ServerReply where
  | callbackAck
  | validation (r : ValidationResponse)
  | badRequest
deriving DecidableEq

/-- Model of `qq_bot_event_handler` from `src/services/server.rs`: a
Dispatch envelope is acknowledged immediately with `{op: 12}` (the event is
handled on a detached task by `dispatch_event`); a WebhookValidate envelope
returns the validator's response; a defined-but-unsupported or an invalid
opcode yields the structured 400 error. The outer `none` models the panic
propagated out of `validate_webhook`. -/
def qq_bot_event_handler (payload : QQBotEvent) (secret : String) :
    Option ServerReply :=
  match opFromU8 payload.op with
  | some .Dispatch => some .callbackAck
  | some .WebhookValidate =>
    (validate_webhook payload secret).map .validation
  | some _ => some .badRequest
  | none => some .badRequest

/-! ### Specification-side definitions used to state the claims. -/

/-- Specification-side seed: the secret's bytes "repeated until the byte
length is at least 32, then truncated to exactly 32 bytes". For a non-empty
secret 32 copies always reach 32 bytes, and truncation discards any excess
beyond the minimal repetition, so this is the spec's seed. -/
def specSeed32 (b : List Nat) : List Nat :=
  (List.replicate 32 b).flatten.take 32

/-- Checker for the spec sentence "between any two consecutive heartbeats a
HeartbeatACK is received": scans a trace; once a heartbeat send is seen, a
further send before an ACK violates the property. The flag records whether
the scan is between a send and its ACK. -/
def hbGapsOk : Bool → List TraceItem → Bool
  | _, [] => true
  | afterHB, item :: rest =>
    match item with
    | .hbSent _ _ => if afterHB then false else hbGapsOk true rest
    | .ackReceived => hbGapsOk false rest

/-- A concrete, fully valid `GroupMessage` JSON payload. -/
def groupPayload : JValue :=
  .obj [("author", .obj [("id", .str "A"), ("member_openid", .str "M"),
      ("union_openid", .str "U")]),
    ("content", .str "hi"), ("group_id", .str "G"),
    ("group_openid", .str "GO"), ("id", .str "mid"),
    ("message_scene", .obj [("source", .str "qq")]),
    ("message_type", .num 0), ("timestamp", .str "ts")]

/-- The `GroupMessage` that `groupPayload` deserializes to. -/
def groupPayloadMsg : GroupMessage :=
  ⟨⟨"A", "M", "U"⟩, "hi", "G", "GO", "mid", ⟨"qq"⟩, 0, "ts"⟩

/-- A Dispatch envelope carrying `groupPayload` under
`GROUP_AT_MESSAGE_CREATE`. -/
def groupCreateEnvelope : QQBotEvent :=
  ⟨none, 0, some groupPayload, some 42, some "GROUP_AT_MESSAGE_CREATE"⟩

/-! ### Helper lemmas. -/

/-- A `None` session-id argument leaves `session_id` unchanged. -/
theorem update_none_session_id (st : SessionData) (seq : Option Nat) :
    (st.update none seq).session_id = st.session_id := by
  simp only [SessionData.update]
  split_ifs with h1 h2 <;> simp_all

/-- A `None` last-seq argument leaves `last_seq` unchanged. -/
theorem update_none_last_seq (st : SessionData) (sid : Option String) :
    (st.update sid none).last_seq = st.last_seq := by
  simp only [SessionData.update]
  split_ifs with h1 h2 <;> simp_all

/-- `update(None, None)` is a no-op. -/
theorem update_none_none (st : SessionData) : st.update none none = st := by
  simp only [SessionData.update]
  split_ifs with h1 h2 <;> simp_all

/-- An update with `Some s` as last-seq always makes `last_seq = some s`. -/
theorem update_some_last_seq (st : SessionData) (sid : Option String)
    (s : Nat) : (st.update sid (some s)).last_seq = some s := by
  simp only [SessionData.update]
  split_ifs with h1 h2 h3 <;> simp_all

/-- `update` never turns `session_id` from `Some` into `None`. -/
theorem update_session_id_isSome (st : SessionData) (a : Option String)
    (b : Option Nat) (h : st.session_id.isSome) :
    (st.update a b).session_id.isSome := by
  simp only [SessionData.update]
  split_ifs with h1 h2 h3 <;> simp_all

/-- `update` never turns `last_seq` from `Some` into `None`. -/
theorem update_last_seq_isSome (st : SessionData) (a : Option String)
    (b : Option Nat) (h : st.last_seq.isSome) :
    (st.update a b).last_seq.isSome := by
  simp only [SessionData.update]
  split_ifs with h1 h2 h3 <;> simp_all

/-- `handle_dispatch` never changes `last_seq` (its only write is the READY
session-id install, which passes `None` for last-seq). -/
theorem handle_dispatch_last_seq (st : SessionData) (ev : QQBotEvent) :
    (handle_dispatch st ev).1.last_seq = st.last_seq := by
  unfold handle_dispatch
  repeat' split
  all_goals first | rfl | exact update_none_last_seq ..

/-- `handle_dispatch` performs no handler invocation (the source only logs
non-READY events, with a TODO for real dispatch). -/
theorem handle_dispatch_no_calls (st : SessionData) (ev : QQBotEvent) :
    (handle_dispatch st ev).2 = [] := by
  unfold handle_dispatch
  repeat' split
  all_goals rfl

/-- `handle_dispatch` only inspects the `t` and `d` fields of the event. -/
theorem handle_dispatch_t_d (st : SessionData) (e1 e2 : QQBotEvent)
    (ht : e1.t = e2.t) (hd : e1.d = e2.d) :
    handle_dispatch st e1 = handle_dispatch st e2 := by
  unfold handle_dispatch
  rw [ht, hd]

/-- A non-null present `d` value is kept by the codec's `d` handling. -/
theorem decodeD_some_of_ne (v : JValue) (h : v ≠ .null) :
    decodeD (some v) = some v := by
  cases v <;> first | rfl | exact absurd rfl h

/-- Taking a prefix no longer than the left part of an append ignores the
right part. -/
theorem take_append_of_le {α : Type} (l1 l2 : List α) (n : Nat)
    (h : n ≤ l1.length) : (l1 ++ l2).take n = l1.take n := by
  simp [List.take_append_eq_append_take, Nat.sub_eq_zero_of_le h]

/-- A list commutes with the flattening of its own replicz copies. -/
theorem flatten_replicate_comm {α : Type} (s : List α) (k : Nat) :
    s ++ (List.replicate k s).flatten = (List.replicate k s).flatten ++ s := by
  induction k with
  | zero => simp
  | succ k ih =>
    simp only [List.replicate_succ, List.flatten_cons, List.append_assoc]
    rw [← ih]

/-- Length of flattened replicate. -/
theorem length_flatten_replicate {α : Type} (s : List α) (k : Nat) :
    ((List.replicate k s).flatten).length = k * s.length := by
  induction k with
  | zero => simp
  | succ k ih =>
    simp [List.replicate_succ, ih, Nat.succ_mul, Nat.add_comm]

/-- The seed `while` loop, given enough fuel and a non-empty secret, yields
(after truncation to 32) the spec-side seed continued from the accumulator. -/
theorem seedLoop_eq (secret : List Nat) (hs : secret ≠ []) :
    ∀ (fuel : Nat) (acc : List Nat), 32 ≤ acc.length + fuel →
      (seedLoop secret fuel acc).map (fun l => l.take 32)
        = some ((acc ++ (List.replicate 32 secret).flatten).take 32) := by
  have hslen : 1 ≤ secret.length := List.length_pos.mpr hs
  have hflen : ((List.replicate 32 secret).flatten).length = 32 * secret.length :=
    length_flatten_replicate secret 32
  intro fuel
  induction fuel with
  | zero =>
    intro acc h
    have h32 : ¬ acc.length < 32 := by omega
    simp only [seedLoop, h32, if_false, Option.map_some]
    exact congrArg some (take_append_of_le _ _ _ (by omega)).symm
  | succ fuel ih =>
    intro acc h
    by_cases hlt : acc.length < 32
    · have hrec := ih (acc ++ secret) (by simp [List.length_append]; omega)
      simp only [seedLoop, hlt, if_true]
      rw [hrec]
      refine congrArg some ?_
      rw [List.append_assoc, flatten_replicate_comm, ← List.append_assoc]
      exact take_append_of_le _ _ _
        (by simp only [List.length_append, hflen]; omega)
    · simp only [seedLoop, hlt, if_false, Option.map_some]
      exact congrArg some (take_append_of_le _ _ _ (by omega)).symm

/-- For a non-empty secret the source's seed construction equals the
spec-side "repeat to at least 32 bytes, truncate to 32". -/
theorem seedBytes_eq (secret : List Nat) (hs : secret ≠ []) :
    seedBytes secret = some (specSeed32 secret) := by
  have hslen : 1 ≤ secret.length := List.length_pos.mpr hs
  have hflen : ((List.replicate 32 secret).flatten).length
      = 32 * secret.length := length_flatten_replicate secret 32
  have h := seedLoop_eq secret hs 33 secret (by omega)
  rw [seedBytes, h]
  refine congrArg some ?_
  rw [flatten_replicate_comm]
  exact take_append_of_le _ _ _ (by omega)

/-- UTF-8 encoding distributes over string concatenation. -/
theorem strBytes_append (a b : String) :
    strBytes (a ++ b) = strBytes a ++ strBytes b := by
  simp [strBytes]

/-- The Ed25519 verification equation holds for every signature produced by
the signing algorithm: with `S = (r + k * a) mod L` and the challenge `k`
recomputed from the same encodings, `S ≡ r + k * a (mod L)`. -/
theorem dlVerify_sign (seed msg : List Nat) :
    dlVerify (signA seed) (signR seed msg) (signS seed msg) msg = true := by
  unfold dlVerify signS signK pubBytes signR
  simp [Nat.mod_mod]

/-- Running the loop on a concatenation: as long as the first stretch did
not exit, the run continues from its final state. -/
theorem runLoop_append (st : LoopState) (xs ys : List Stim)
    (h : (runLoop st xs).2.2 = none) :
    runLoop st (xs ++ ys)
      = ((runLoop (runLoop st xs).1 ys).1,
        (runLoop st xs).2.1 ++ (runLoop (runLoop st xs).1 ys).2.1,
        (runLoop (runLoop st xs).1 ys).2.2) := by
  induction xs generalizing st with
  | nil => simp [runLoop]
  | cons x rest ih =>
    rcases hstep : stepLoop st x with ⟨st1, out, ex⟩
    cases ex with
    | some r =>
      exfalso
      simp [runLoop, hstep] at h
    | none =>
      have h' : (runLoop st1 rest).2.2 = none := by
        simpa [runLoop, hstep] using h
      simp [runLoop, hstep, ih st1 h', List.append_assoc]

/-! ### The claims. -/

/-- C9: `SessionState::update` never unsets a field: a `None` argument
leaves the corresponding stored field unchanged, so `update(None, None)` is
a no-op, and once `session_id` (resp. `last_seq`) is `Some` it remains
`Some` after every further sequence of update operations. -/
theorem c9_update_never_unsets :
    (∀ (st : SessionData) (seq : Option Nat),
      (st.update none seq).session_id = st.session_id)
    ∧ (∀ (st : SessionData) (sid : Option String),
      (st.update sid none).last_seq = st.last_seq)
    ∧ (∀ st : SessionData, st.update none none = st)
    ∧ (∀ (st : SessionData) (ops : List (Option String × Option Nat)),
      (st.session_id.isSome = true →
        (ops.foldl (fun d a => d.update a.1 a.2) st).session_id.isSome
          = true)
      ∧ (st.last_seq.isSome = true →
        (ops.foldl (fun d a => d.update a.1 a.2) st).last_seq.isSome
          = true)) := by
  refine ⟨update_none_session_id, update_none_last_seq, update_none_none,
    fun st ops => ?_⟩
  induction ops generalizing st with
  | nil => exact ⟨fun h => h, fun h => h⟩
  | cons a rest ih =>
    exact ⟨fun h => (ih _).1 (update_session_id_isSome _ _ _ h),
      fun h => (ih _).2 (update_last_seq_isSome _ _ _ h)⟩

/-- Witness for C9 at a concrete state and update sequence. -/
theorem c9_update_never_unsets_witness :
    ((⟨some "S", some 3⟩ : SessionData).session_id.isSome = true)
    ∧ (([(none, some 7), (some "A", none)] :
        List (Option String × Option Nat)).foldl
        (fun d a => d.update a.1 a.2)
        (⟨some "S", some 3⟩ : SessionData)).session_id.isSome = true :=
  ⟨by decide,
    (c9_update_never_unsets.2.2.2 ⟨some "S", some 3⟩
      [(none, some 7), (some "A", none)]).1 (by decide)⟩

/-- C4 counterexample: with stored `last_seq = 5`, an envelope carrying
`s = 3` makes `last_seq = 3`, not `max(5, 3) = 5` — the source overwrites
instead of taking the maximum, so `last_seq` is not monotone under
out-of-order arrival. -/
theorem c4_last_seq_not_max :
    (SessionData.update ⟨none, some 5⟩ none (some 3)).last_seq = some 3
    ∧ (SessionData.update ⟨none, some 5⟩ none (some 3)).last_seq
      ≠ some (max 5 3) := by
  decide

/-- C4 amended: for every inbound envelope carrying a sequence number `s`,
the manager sets `last_seq` to exactly `s` (unconditional overwrite, no
maximum); an envelope without `s` leaves `last_seq` unchanged — both at the
level of `SessionState::update` and across a full steady-state loop
iteration on a text frame. -/
theorem c4_last_seq_overwritten :
    (∀ (st : SessionData) (s : Nat),
      (st.update none (some s)).last_seq = some s)
    ∧ (∀ (st : LoopState) (ev : QQBotEvent),
      (stepLoop st (.text ev)).1.session.last_seq
        = match ev.s with
          | some n => some n
          | none => st.session.last_seq) := by
  refine ⟨fun st s => update_some_last_seq st none s, fun st ev => ?_⟩
  unfold stepLoop
  cases hs : ev.s with
  | none =>
    cases hop : opOrDispatch ev.op <;>
      simp [hs, hop, handle_dispatch_last_seq, update_none_none]
  | some n =>
    cases hop : opOrDispatch ev.op <;>
      simp [hs, hop, handle_dispatch_last_seq, update_none_none,
        update_some_last_seq]

/-- C1 (code-bug evidence): with session state `(Some "S1", Some 1)`, an
op 9 (InvalidSession) envelope exits the loop with the invalid-session
error but — because `update(None, None)` is a no-op — both session fields
survive unchanged, and the next connection attempt's handshake is Resume
(op 6), not Identify; this contradicts the source's own comments at the
call site ("clear the state", "the reconnect will Identify because there is
no state") and the spec. -/
theorem c1_invalid_session_keeps_state :
    stepLoop ⟨⟨some "S1", some 1⟩, false⟩ (.text ⟨none, 9, none, none, none⟩)
      = (⟨⟨some "S1", some 1⟩, false⟩, [], some .invalidSession)
    ∧ chooseHandshake "tok" ⟨some "S1", some 1⟩ = send_resume "tok" "S1" 1
    ∧ (chooseHandshake "tok" ⟨some "S1", some 1⟩).op = 6 :=
  ⟨rfl, rfl, rfl⟩

/-- C5: after Hello, if the session state holds both fields the manager
sends Resume (op 6) with `d = {seq: last_seq, session_id, token: "QQBot "
++ token}`, otherwise Identify (op 2) with `d = {intents: 1 <<< 30, shard:
[0, 1], token: "QQBot " ++ token}` (objects listed in the key order of
`serde_json`'s map). -/
theorem c5_handshake (token sid : String) (seq : Nat) (st : SessionData) :
    (st.session_id = some sid → st.last_seq = some seq →
      chooseHandshake token st
        = ⟨none, 6, some (.obj [("seq", .num seq), ("session_id", .str sid),
            ("token", .str ("QQBot " ++ token))]), none, none⟩)
    ∧ ((st.session_id = none ∨ st.last_seq = none) →
      chooseHandshake token st
        = ⟨none, 2, some (.obj [("intents", .num (2 ^ 30)),
            ("shard", .arr [.num 0, .num 1]),
            ("token", .str ("QQBot " ++ token))]), none, none⟩) := by
  obtain ⟨a, b⟩ := st
  constructor
  · rintro rfl rfl
    simp [chooseHandshake, send_resume, mapInsert]
    decide
  · rintro (rfl | rfl)
    · simp [chooseHandshake, send_identify, mapInsert]
      rw [if_neg (by decide), if_pos (by decide)]
    · cases a <;> simp [chooseHandshake, send_identify, mapInsert] <;>
        rw [if_neg (by decide), if_pos (by decide)]

/-- Witness for C5 at concrete session states. -/
theorem c5_handshake_witness :
    chooseHandshake "tok" ⟨some "S1", some 1⟩
      = ⟨none, 6, some (.obj [("seq", .num 1), ("session_id", .str "S1"),
          ("token", .str ("QQBot " ++ "tok"))]), none, none⟩
    ∧ chooseHandshake "tok" ⟨none, none⟩
      = ⟨none, 2, some (.obj [("intents", .num (2 ^ 30)),
          ("shard", .arr [.num 0, .num 1]),
          ("token", .str ("QQBot " ++ "tok"))]), none, none⟩ :=
  ⟨(c5_handshake "tok" "S1" 1 ⟨some "S1", some 1⟩).1 rfl rfl,
    (c5_handshake "tok" "x" 0 ⟨none, none⟩).2 (Or.inl rfl)⟩

/-- C6 counterexample: op 3 is not a defined opcode, yet its envelope is not
merely logged: via the `unwrap_or(Dispatch)` fallback it runs dispatch
routing, and a READY-shaped payload installs `session_id` — a state change
beyond the `last_seq` update. -/
theorem c6_unknown_opcode_not_ignored :
    opFromU8 3 = none
    ∧ (stepLoop ⟨⟨none, none⟩, false⟩
        (.text ⟨none, 3, some (.obj [("session_id", .str "X")]), none,
          some "READY"⟩)).1.session.session_id = some "X" :=
  ⟨rfl, rfl⟩

/-- C6 amended: an envelope whose op is not a defined opcode is processed
exactly as a Dispatch (op 0) envelope — dispatch routing by `t` runs on it;
the envelopes that are only logged, with no effect beyond the `last_seq`
update, are those with the defined-but-unhandled opcodes 2, 6, 10, 12, 13. -/
theorem c6_unknown_opcode_is_dispatch (st : LoopState) (ev : QQBotEvent) :
    (opFromU8 ev.op = none →
      stepLoop st (.text ev)
        = stepLoop st (.text ⟨ev.id, 0, ev.d, ev.s, ev.t⟩))
    ∧ (ev.op = 2 ∨ ev.op = 6 ∨ ev.op = 10 ∨ ev.op = 12 ∨ ev.op = 13 →
      stepLoop st (.text ev)
        = ({ st with session := match ev.s with
              | some n => st.session.update none (some n)
              | none => st.session }, [], none)) := by
  obtain ⟨id, op, d, s, t⟩ := ev
  constructor
  · intro h
    have hop : opOrDispatch op = .Dispatch := by
      rw [opOrDispatch, h]; rfl
    have hop0 : opOrDispatch 0 = .Dispatch := rfl
    simp only [stepLoop, hop, hop0]
    rw [handle_dispatch_t_d _ ⟨id, op, d, s, t⟩ ⟨id, 0, d, s, t⟩ rfl rfl]
  · rintro (rfl | rfl | rfl | rfl | rfl) <;> rfl

/-- Witness for C6 at concrete envelopes: op 3 (undefined) behaves as
Dispatch, and op 10 (Hello, defined but unhandled in steady state) only
updates `last_seq`. -/
theorem c6_unknown_opcode_witness :
    opFromU8 3 = none
    ∧ stepLoop ⟨⟨none, none⟩, false⟩
        (.text ⟨none, 3, some (.obj [("session_id", .str "X")]), none,
          some "READY"⟩)
      = stepLoop ⟨⟨none, none⟩, false⟩
        (.text ⟨none, 0, some (.obj [("session_id", .str "X")]), none,
          some "READY"⟩)
    ∧ stepLoop ⟨⟨none, some 4⟩, true⟩ (.text ⟨none, 10, none, some 9, none⟩)
      = (⟨⟨none, some 9⟩, true⟩, [], none) :=
  ⟨rfl,
    (c6_unknown_opcode_is_dispatch ⟨⟨none, none⟩, false⟩
      ⟨none, 3, some (.obj [("session_id", .str "X")]), none,
        some "READY"⟩).1 rfl,
    ((c6_unknown_opcode_is_dispatch ⟨⟨none, some 4⟩, true⟩
      ⟨none, 10, none, some 9, none⟩).2
      (Or.inr (Or.inr (Or.inl rfl)))).trans rfl⟩

/-- C2 (code-bug evidence): for a Dispatch envelope carrying a fully valid
`GroupMessage` under `t = GROUP_AT_MESSAGE_CREATE`, the session manager's
`handle_dispatch` performs no handler invocation and leaves the state
untouched (the source logs the event with a TODO), while the webhook-path
`dispatch_event` decodes the same payload and invokes the group handler;
in fact the session manager never performs any handler call. -/
theorem c2_ws_manager_drops_group_event :
    handle_dispatch ⟨none, none⟩ groupCreateEnvelope = (⟨none, none⟩, [])
    ∧ dispatch_event groupCreateEnvelope = .ok [.groupAt groupPayloadMsg]
    ∧ (∀ (st : SessionData) (ev : QQBotEvent),
        (handle_dispatch st ev).2 = []) :=
  ⟨rfl, rfl, handle_dispatch_no_calls⟩

/-- C10: `validate_webhook` is partial at the public interface: whenever the
envelope's `d` does not deserialize to the validation payload — including
an absent or JSON-null `d` — the op 13 path of the intake server panics
(`unwrap`, modelled as `none`) instead of producing a structured error
reply. -/
theorem c10_webhook_validate_panics (secret : String) :
    qq_bot_event_handler ⟨none, 13, none, none, none⟩ secret = none
    ∧ qq_bot_event_handler ⟨none, 13, some .null, none, none⟩ secret = none
    ∧ (∀ d : Option JValue, decodeValidationRequest d = none →
      qq_bot_event_handler ⟨none, 13, d, none, none⟩ secret = none) := by
  refine ⟨rfl, rfl, fun d h => ?_⟩
  simp [qq_bot_event_handler, opFromU8, validate_webhook, h]

/-- Witness for C10 at a concrete undecodable payload. -/
theorem c10_webhook_validate_panics_witness :
    decodeValidationRequest (some (.num 3)) = none
    ∧ qq_bot_event_handler ⟨none, 13, some (.num 3), none, none⟩ "s"
      = none :=
  ⟨rfl, (c10_webhook_validate_panics "s").2.2 (some (.num 3)) rfl⟩

/-- C8 counterexample: an event with `d` present but equal to JSON `null`
does not round-trip: `d` has no skip attribute, so `Some(Null)` serializes
as `"d": null`, which decodes to `None` — the value changes and a present
field becomes absent. -/
theorem c8_roundtrip_counterexample :
    decode (encode ⟨none, 0, some .null, none, none⟩)
      = some ⟨none, 0, none, none, none⟩
    ∧ decode (encode ⟨none, 0, some .null, none, none⟩)
      ≠ some ⟨none, 0, some .null, none, none⟩ := by
  refine ⟨rfl, fun h => ?_⟩
  rw [show decode (encode ⟨none, 0, some .null, none, none⟩)
    = some ⟨none, 0, none, none, none⟩ from rfl] at h
  simp at h

/-- C8 amended: serializing then deserializing a `QQBotEvent` yields an
equal value — absent optional fields staying absent — for every event whose
`d`, when present, is not the JSON null value (`op` is a `u8` and `s` a
`u64`, as in the source types). -/
theorem c8_roundtrip (e : QQBotEvent) (hop : e.op < 2 ^ 8)
    (hs : ∀ n, e.s = some n → n < 2 ^ 64) (hd : e.d ≠ some .null) :
    decode (encode e) = some e := by
  obtain ⟨id, op, d, s, t⟩ := e
  have hop' : op < 256 := by simpa using hop
  rcases d with - | dv
  · cases s with
    | none =>
      cases id <;> cases t <;>
        simp_all [encode, decode, lookupField, decodeOptStr, decodeOptU64,
          decodeD]
    | some n =>
      have hn : n < 2 ^ 64 := hs n rfl
      cases id <;> cases t <;>
        simp_all [encode, decode, lookupField, decodeOptStr, decodeOptU64,
          decodeD]
  · have hdv : dv ≠ JValue.null := fun hv => hd (by rw [hv])
    cases dv
    case null => exact absurd rfl hdv
    all_goals
      cases s with
      | none =>
        cases id <;> cases t <;>
          simp_all [encode, decode, lookupField, decodeOptStr, decodeOptU64,
            decodeD]
      | some n =>
        have hn : n < 2 ^ 64 := hs n rfl
        cases id <;> cases t <;>
          simp_all [encode, decode, lookupField, decodeOptStr, decodeOptU64,
            decodeD]

/-- Witness for C8 at a concrete event with every optional field present. -/
theorem c8_roundtrip_witness :
    ((7 : Nat) < 2 ^ 8) ∧ ((5 : Nat) < 2 ^ 64)
    ∧ decode (encode ⟨some "i", 7, some (.str "x"), some 5, some "T"⟩)
      = some ⟨some "i", 7, some (.str "x"), some 5, some "T"⟩ :=
  ⟨by decide, by decide,
    c8_roundtrip ⟨some "i", 7, some (.str "x"), some 5, some "T"⟩
      (by decide) (fun n h => by cases h; decide)
      (fun h => JValue.noConfusion (Option.some.inj h))⟩

/-- C3 counterexample: it is not the case that between any two consecutive
heartbeat sends either a HeartbeatACK is received or the attempt ends in
HeartbeatTimeout: two ticks in a row (the interval timer fires again before
the 7-second ACK sleep) produce two consecutive heartbeat sends with no ACK
in between, and the run has not terminated. -/
theorem c3_heartbeat_gap_counterexample :
    ¬ (∀ (st : LoopState) (stims : List Stim),
      hbGapsOk false (runLoop st stims).2.1 = true
      ∨ (runLoop st stims).2.2 = some .heartbeatTimeout) := by
  intro h
  rcases h ⟨⟨none, none⟩, false⟩ [.tick, .tick] with hc | hc
  · exact absurd hc (by decide)
  · exact absurd hc (by decide)

/-- C3 amended: the loop sends a heartbeat on every interval tick even while
a previous heartbeat is unacknowledged (and also replies immediately to a
peer Heartbeat request), so consecutive sends need not be separated by an
ACK; what does hold is the second half of the claim: whenever the armed
ACK-timeout fires while a heartbeat is unacknowledged, the connection
attempt terminates classified as HeartbeatTimeout. -/
theorem c3_ack_timeout_exits (st : LoopState) (pre post : List Stim)
    (h1 : (runLoop st pre).2.2 = none)
    (h2 : (runLoop st pre).1.awaitingAck = true) :
    (runLoop st (pre ++ .ackTimeout :: post)).2.2
      = some .heartbeatTimeout := by
  rw [runLoop_append st pre (.ackTimeout :: post) h1]
  simp [runLoop, stepLoop, h2]

/-- Witness for C3 at a concrete run: after one tick the loop is awaiting an
ACK, and the timer firing then exits with HeartbeatTimeout. -/
theorem c3_ack_timeout_exits_witness :
    (runLoop ⟨⟨none, none⟩, false⟩ [.tick]).2.2 = none
    ∧ (runLoop ⟨⟨none, none⟩, false⟩ [.tick]).1.awaitingAck = true
    ∧ (runLoop ⟨⟨none, none⟩, false⟩ ([.tick] ++ .ackTimeout :: [])).2.2
      = some .heartbeatTimeout :=
  ⟨rfl, rfl, c3_ack_timeout_exits ⟨⟨none, none⟩, false⟩ [.tick] [] rfl rfl⟩

/-- C7 counterexample: for the empty secret the claim fails — the seed
`while` loop never reaches 32 bytes (appending the empty secret never grows
the buffer), so `validate_webhook` diverges (modelled `none`) instead of
returning a signature, even on a perfectly valid payload. -/
theorem c7_empty_secret_diverges :
    validate_webhook ⟨none, 13, some (.obj [("event_ts", .str "1700000000"),
      ("plain_token", .str "abc")]), none, none⟩ "" = none := rfl

/-- C7 amended (non-empty secret): `validate_webhook` returns
`{plain_token: P, signature: h}` where `h` is the lowercase hex encoding of
the Ed25519 signature of the UTF-8 bytes of `T ++ P` under the signing key
whose 32-byte seed is the secret's bytes repeated until at least 32 bytes
and truncated to exactly 32; and that signature satisfies the Ed25519
verification equation under the matching public key (stated in the
discrete-logarithm representation of the prime-order subgroup). -/
theorem c7_validate_webhook_signs (secret T P : String)
    (hs : strBytes secret ≠ []) :
    validate_webhook ⟨none, 13, some (.obj [("event_ts", .str T),
        ("plain_token", .str P)]), none, none⟩ secret
      = some ⟨P, hexLower (ed25519_sign (specSeed32 (strBytes secret))
          (strBytes T ++ strBytes P))⟩
    ∧ dlVerify (signA (specSeed32 (strBytes secret)))
        (signR (specSeed32 (strBytes secret)) (strBytes T ++ strBytes P))
        (signS (specSeed32 (strBytes secret)) (strBytes T ++ strBytes P))
        (strBytes T ++ strBytes P) = true := by
  refine ⟨?_, dlVerify_sign _ _⟩
  have hdec : decodeValidationRequest (some (.obj [("event_ts", .str T),
      ("plain_token", .str P)])) = some ⟨T, P⟩ := rfl
  simp [validate_webhook, hdec, seedBytes_eq (strBytes secret) hs,
    strBytes_append]

/-- Witness for C7 with the spec's own test vector inputs. -/
theorem c7_validate_webhook_signs_witness :
    strBytes "SEED" ≠ []
    ∧ validate_webhook ⟨none, 13, some (.obj [("event_ts",
        .str "1700000000"), ("plain_token", .str "abc")]), none, none⟩
        "SEED"
      = some ⟨"abc", hexLower (ed25519_sign (specSeed32 (strBytes "SEED"))
          (strBytes "1700000000" ++ strBytes "abc"))⟩ :=
  ⟨by decide,
    (c7_validate_webhook_signs "SEED" "1700000000" "abc" (by decide)).1⟩

end BotRs
